import Mathlib

/-! Consensus tunables of `CryptoNoteConfig.h`.

A shallow embedding of the numeric policy constants and of the checkpoint
table of `src/CryptoNoteConfig.h`, together with the small components the
specification builds on top of them (checkpoint registry, timestamp window,
cut of the difficulty window, Poisson reorg guard, policy-version resolver).

Machine integers are natural numbers; every C expression that computes a
constant is evaluated with the width of its C type made explicit
(`uint64_t`, and `size_t` taken as 64 bits wide, wrap modulo `2 ^ 64`;
`uint32_t` wraps modulo `2 ^ 32`).
-/

namespace CryptoNote

/-! ## Fixed-width arithmetic -/

/-- Conversion of a value to `uint32_t`. -/
def toU32 (n : Nat) : Nat := n % 2 ^ 32

/-- Conversion of a value to `uint64_t` (also used for `size_t`). -/
def toU64 (n : Nat) : Nat := n % 2 ^ 64

/-- Unsigned 64-bit subtraction, wrapping around below zero. -/
def subU64 (a b : Nat) : Nat := (toU64 a + 2 ^ 64 - toU64 b) % 2 ^ 64

/-- Unsigned 64-bit multiplication, wrapping around. -/
def mulU64 (a b : Nat) : Nat := (toU64 a * toU64 b) % 2 ^ 64

/-- Unsigned 64-bit addition, wrapping around. -/
def addU64 (a b : Nat) : Nat := (toU64 a + toU64 b) % 2 ^ 64

namespace parameters

/-! ## Constants of `namespace CryptoNote::parameters` -/

/-- Source: `const uint64_t DIFFICULTY_TARGET = 300; // seconds` -/
def DIFFICULTY_TARGET : Nat := toU64 300

/-- Source: `const size_t CRYPTONOTE_BLOCK_GRANTED_FULL_REWARD_ZONE = 10000;` -/
def CRYPTONOTE_BLOCK_GRANTED_FULL_REWARD_ZONE : Nat := toU64 10000

/-- Source: `const size_t CRYPTONOTE_BLOCK_GRANTED_FULL_REWARD_ZONE_V2 = 10000;` -/
def CRYPTONOTE_BLOCK_GRANTED_FULL_REWARD_ZONE_V2 : Nat := toU64 10000

/-- Source: `const size_t CRYPTONOTE_BLOCK_GRANTED_FULL_REWARD_ZONE_V1 = 10000;` -/
def CRYPTONOTE_BLOCK_GRANTED_FULL_REWARD_ZONE_V1 : Nat := toU64 10000

/-- Source: `CRYPTONOTE_BLOCK_GRANTED_FULL_REWARD_ZONE_CURRENT =
CRYPTONOTE_BLOCK_GRANTED_FULL_REWARD_ZONE` -/
def CRYPTONOTE_BLOCK_GRANTED_FULL_REWARD_ZONE_CURRENT : Nat :=
  CRYPTONOTE_BLOCK_GRANTED_FULL_REWARD_ZONE

/-- Source: `const size_t CRYPTONOTE_COINBASE_BLOB_RESERVED_SIZE = 600;` -/
def CRYPTONOTE_COINBASE_BLOB_RESERVED_SIZE : Nat := toU64 600

/-- Source: `const uint64_t MAX_TRANSACTION_SIZE_LIMIT =
CRYPTONOTE_BLOCK_GRANTED_FULL_REWARD_ZONE_CURRENT / 4 - CRYPTONOTE_COINBASE_BLOB_RESERVED_SIZE;`
The subtraction is the unsigned, wrapping one of `size_t`. -/
def MAX_TRANSACTION_SIZE_LIMIT : Nat :=
  toU64 (subU64 (CRYPTONOTE_BLOCK_GRANTED_FULL_REWARD_ZONE_CURRENT / 4)
    CRYPTONOTE_COINBASE_BLOB_RESERVED_SIZE)

/-- Source: `const uint64_t EXPECTED_NUMBER_OF_BLOCKS_PER_DAY = 24 * 60 * 60 / DIFFICULTY_TARGET;` -/
def EXPECTED_NUMBER_OF_BLOCKS_PER_DAY : Nat := toU64 (toU64 (24 * 60 * 60) / DIFFICULTY_TARGET)

/-- Source: `const size_t DIFFICULTY_WINDOW = EXPECTED_NUMBER_OF_BLOCKS_PER_DAY; // blocks` -/
def DIFFICULTY_WINDOW : Nat := toU64 EXPECTED_NUMBER_OF_BLOCKS_PER_DAY

/-- Source: `const size_t DIFFICULTY_WINDOW_V2 = EXPECTED_NUMBER_OF_BLOCKS_PER_DAY; // blocks` -/
def DIFFICULTY_WINDOW_V2 : Nat := toU64 EXPECTED_NUMBER_OF_BLOCKS_PER_DAY

/-- Source: `const size_t DIFFICULTY_WINDOW_V3 = EXPECTED_NUMBER_OF_BLOCKS_PER_DAY; // blocks` -/
def DIFFICULTY_WINDOW_V3 : Nat := toU64 EXPECTED_NUMBER_OF_BLOCKS_PER_DAY

/-- Source: `const size_t DIFFICULTY_CUT = 60; // timestamps to cut after sorting` -/
def DIFFICULTY_CUT : Nat := toU64 60

/-- Source: `const size_t DIFFICULTY_LAG = 15; // !!!` -/
def DIFFICULTY_LAG : Nat := toU64 15

/-- The condition of
`static_assert(2 * DIFFICULTY_CUT <= DIFFICULTY_WINDOW - 2, "Bad DIFFICULTY_WINDOW or DIFFICULTY_CUT");`
for a window length `W`, in the wrapping arithmetic of `size_t`. -/
def difficultyWindowAssert (W : Nat) : Bool :=
  decide (mulU64 2 DIFFICULTY_CUT ≤ subU64 W 2)

/-- Source: `static constexpr uint64_t POISSON_CHECK_TRIGGER = 10;` -/
def POISSON_CHECK_TRIGGER : Nat := toU64 10

/-- Source: `static constexpr uint64_t POISSON_CHECK_DEPTH = 60;` -/
def POISSON_CHECK_DEPTH : Nat := toU64 60

/-- Source: `static constexpr double POISSON_LOG_P_REJECT = -75.0;` The value is an
integer, so it is kept exactly. -/
def POISSON_LOG_P_REJECT : Int := -75

/-- Source: `const size_t FUSION_TX_MAX_SIZE = CRYPTONOTE_BLOCK_GRANTED_FULL_REWARD_ZONE_V1 * 30 / 100;` -/
def FUSION_TX_MAX_SIZE : Nat :=
  toU64 (mulU64 CRYPTONOTE_BLOCK_GRANTED_FULL_REWARD_ZONE_V1 30 / 100)

/-- Source: `const uint32_t UPGRADE_HEIGHT_V2 = 11831;` -/
def UPGRADE_HEIGHT_V2 : Nat := toU32 11831

/-- Source: `const uint32_t UPGRADE_HEIGHT_V3 = 11831;` -/
def UPGRADE_HEIGHT_V3 : Nat := toU32 11831

/-- Source: `const uint32_t UPGRADE_HEIGHT_V4 = 11831;` -/
def UPGRADE_HEIGHT_V4 : Nat := toU32 11831

/-- Source: `const uint32_t UPGRADE_HEIGHT_V5 = 11831;` -/
def UPGRADE_HEIGHT_V5 : Nat := toU32 11831

end parameters

open parameters

/-! ## Height-gated variants -/

/-- The three window variants `DIFFICULTY_WINDOW`, `_V2`, `_V3` of the header. -/
inductive DifficultyWindowVariant where
  | v1
  | v2
  | v3
  deriving DecidableEq, Repr

/-- The constant each window variant names. -/
def difficultyWindowOf : DifficultyWindowVariant → Nat
  | .v1 => DIFFICULTY_WINDOW
  | .v2 => DIFFICULTY_WINDOW_V2
  | .v3 => DIFFICULTY_WINDOW_V3

/-- The window lengths of the header, in declaration order. -/
def DIFFICULTY_WINDOW_VARIANTS : List Nat :=
  [DIFFICULTY_WINDOW, DIFFICULTY_WINDOW_V2, DIFFICULTY_WINDOW_V3]

/-- Capacity of a timestamp window, `DIFFICULTY_WINDOW + DIFFICULTY_LAG`, for the
window variant that the policy selects at `height`. The selection itself is
not part of the header and is taken as the parameter `select`. -/
def windowCapacity (select : Nat → DifficultyWindowVariant) (height : Nat) : Nat :=
  addU64 (difficultyWindowOf (select height)) DIFFICULTY_LAG

/-- The upgrade thresholds `UPGRADE_HEIGHT_V2 .. UPGRADE_HEIGHT_V5`, each with the
block major version it activates, in declaration order. -/
def UPGRADE_HEIGHTS : List (Nat × Nat) :=
  [(2, UPGRADE_HEIGHT_V2), (3, UPGRADE_HEIGHT_V3), (4, UPGRADE_HEIGHT_V4), (5, UPGRADE_HEIGHT_V5)]

/-- Modelled from the spec: the policy-version resolver is not part of the
header. One step of its scan over the thresholds: a threshold that is at
most `height` and not below the one selected so far replaces it. -/
def resolveStep (height : Nat) (acc : Option (Nat × Nat)) (e : Nat × Nat) : Option (Nat × Nat) :=
  if e.2 ≤ height then
    match acc with
    | none => some e
    | some a => if a.2 ≤ e.2 then some e else some a
  else acc

/-- Modelled from the spec: the policy-version resolver, "scanning ascending
`UPGRADE_HEIGHT_*` thresholds and selecting the highest threshold ≤ height".
The result is the selected (version, threshold) pair, `none` when no threshold
is at most `height`. -/
def resolvePolicy (height : Nat) : Option (Nat × Nat) :=
  UPGRADE_HEIGHTS.foldl (resolveStep height) none

/-! ## Checkpoints -/

/-- Source: `struct CheckpointData { uint32_t height; const char* blockId; };` -/
structure CheckpointData where
  height : Nat
  blockId : String
  deriving DecidableEq, Repr

/-- Source: `const std::initializer_list<CheckpointData> CHECKPOINTS = { ... };` -/
def CHECKPOINTS : List CheckpointData :=
  [ ⟨toU32 10, "3f658b2dacdd0c1bc1c3cc59037a867992c688079cf5a6594567e2d66b2eb4f1"⟩,
    ⟨toU32 100, "cc5133a55eac068fbbe512dab52b62d6dc5486a0c4da03f5389da8422b2e967c"⟩,
    ⟨toU32 1000, "dece7c338cb084377748106548bfcc14d50c1a7d20e98435a1118c81db3c86fb"⟩,
    ⟨toU32 10000, "7a296132cca0c2e550a824c7997e9a129d019d1e87512e3959c0f86568521932"⟩,
    ⟨toU32 11832, "a24f5db484e7297b81f98b575304c6f24587ed1f01d65953ad8565361b827620"⟩ ]

/-- Modelled from the spec: `CheckpointRegistry.verify(height, hash) -> bool` is
not part of the header. It "returns false (never throws) for an unknown height
... and returns the equality test result when a checkpoint exists": the entry
of the table at `height` is looked up and its block id compared with `hash`. -/
def verify (height : Nat) (hash : String) : Bool :=
  match CHECKPOINTS.find? (fun e => e.height == height) with
  | none => false
  | some e => e.blockId == hash

/-- Modelled from the spec: `latestCheckpointHeight() -> uint32` is not part of
the header. It is the greatest height of the checkpoint table (0 for an empty
table). -/
def latestCheckpointHeight : Nat :=
  CHECKPOINTS.foldl (fun m e => max m e.height) 0

/-- Modelled from the spec: the hex decoder that turns a block id into the
"32-byte digest" of a `CheckpointEntry` is not part of the header. This is the
value of one hexadecimal digit, `none` for any other character. -/
def hexValue (c : Char) : Option Nat :=
  if '0' ≤ c ∧ c ≤ '9' then some (c.toNat - '0'.toNat)
  else if 'a' ≤ c ∧ c ≤ 'f' then some (c.toNat - 'a'.toNat + 10)
  else if 'A' ≤ c ∧ c ≤ 'F' then some (c.toNat - 'A'.toNat + 10)
  else none

/-- Modelled from the spec: the hex decoder (see `hexValue`), two digits a byte,
most significant digit first; fails on an odd number of characters or on a
character that is no hexadecimal digit. -/
def fromHex : List Char → Option (List Nat)
  | [] => some []
  | [_] => none
  | hi :: lo :: rest =>
    match hexValue hi, hexValue lo, fromHex rest with
    | some h, some l, some bs => some ((h * 16 + l) :: bs)
    | _, _, _ => none

/-! ## Timestamp window -/

/-- Modelled from the spec: `BlockTimingRecord`, "`{ height: uint, timestamp:
uint64, cumulativeDifficulty: uint64 }`", is not declared in the source. -/
structure BlockTimingRecord where
  height : Nat
  timestamp : Nat
  cumulativeDifficulty : Nat
  deriving DecidableEq, Repr

/-- Modelled from the spec: the error taxonomy of the core, section 7. -/
inductive CoreError where
  | OutOfOrderError
  | InsufficientHistoryError
  deriving DecidableEq, Repr

/-- Modelled from the spec: `TimestampWindow`, "an ordered sequence of up to
`DIFFICULTY_WINDOW` (+`DIFFICULTY_LAG`) BlockTimingRecords, newest-last", with
its configured capacity and the height expected of the first record. -/
structure TimestampWindow where
  records : List BlockTimingRecord
  capacity : Nat
  startHeight : Nat
  deriving DecidableEq, Repr

/-- Modelled from the spec: `TimestampWindow.append(record)`, which "fails with
`OutOfOrderError` if `record.height` does not equal `lastHeight + 1` (or window
is empty and height is the expected start)" and "evicts the oldest record if
capacity ... is exceeded". The result is the outcome of the call together with
the window after it. -/
def TimestampWindow.append (w : TimestampWindow) (record : BlockTimingRecord) :
    Except CoreError Unit × TimestampWindow :=
  let inOrder : Bool :=
    match w.records.getLast? with
    | some last => decide (record.height = last.height + 1)
    | none => decide (record.height = w.startHeight)
  if inOrder then
    let grown := w.records ++ [record]
    (Except.ok (), { w with records := if w.capacity < grown.length then grown.drop 1 else grown })
  else
    (Except.error CoreError.OutOfOrderError, w)

/-- Modelled from the spec: `TimestampWindow.snapshot()`, a copy of the current
records. -/
def TimestampWindow.snapshot (w : TimestampWindow) : List BlockTimingRecord := w.records

/-! ## Cut of the difficulty window -/

/-- Modelled from the spec: step 3 of the difficulty estimator, which is not
part of the header, "Cut `DIFFICULTY_CUT` records from each end":
the first `cut` and the last `cut` elements are removed (nothing is left of a
list with at most `2 * cut` elements). -/
def trimEnds {α : Type} (cut : Nat) (l : List α) : List α :=
  (l.drop cut).take (l.length - cut - cut)

/-! ## Poisson reorg guard -/

/-- Modelled from the spec: `PoissonCheckResult`, "`{ accepted: bool,
logProbability: double }`". The log-probability is kept as an integer: its
computation is not modelled (see `PoissonReorgGuard.check`). -/
structure PoissonCheckResult where
  accepted : Bool
  logProbability : Int
  deriving DecidableEq, Repr

/-- Modelled from the spec: `PoissonReorgGuard.check(mainWindow, altWindow,
reorgDepth)`. It "triggers only when `reorgDepth >= POISSON_CHECK_TRIGGER`";
below the trigger it accepts "without computing probability". Otherwise it
examines the most recent `POISSON_CHECK_DEPTH` main-chain records and the
alternative chain, and "rejects (`accepted = false`) if `logProbability <
POISSON_LOG_P_REJECT`". The floating-point computation of the log-probability
is the parameter `logP`. -/
def PoissonReorgGuard.check
    (logP : List BlockTimingRecord → List BlockTimingRecord → Nat → Int)
    (mainWindow altWindow : List BlockTimingRecord) (reorgDepth : Nat) : PoissonCheckResult :=
  if reorgDepth < POISSON_CHECK_TRIGGER then
    { accepted := true, logProbability := 0 }
  else
    let recent := mainWindow.drop (mainWindow.length - POISSON_CHECK_DEPTH)
    let lp := logP recent altWindow reorgDepth
    { accepted := !decide (lp < POISSON_LOG_P_REJECT), logProbability := lp }

/-! ## Theorems on the constants -/

/-- C3: for each window variant `W` of the header, `W >= 2` so `W - 2` does not
wrap, `2 * DIFFICULTY_CUT <= W - 2` holds (in the wrapping arithmetic of the
`static_assert` as well as exactly), and cutting `DIFFICULTY_CUT` records from
each end of `W` records leaves exactly 168, hence at least 2. -/
theorem difficulty_cut_leaves_two (W : Nat) (hW : W ∈ DIFFICULTY_WINDOW_VARIANTS) :
    2 ≤ W ∧ subU64 W 2 = W - 2 ∧ mulU64 2 DIFFICULTY_CUT = 2 * DIFFICULTY_CUT ∧
      difficultyWindowAssert W = true ∧ 2 * DIFFICULTY_CUT ≤ W - 2 ∧
      W - DIFFICULTY_CUT - DIFFICULTY_CUT = 168 ∧ 2 ≤ W - DIFFICULTY_CUT - DIFFICULTY_CUT := by
  have h288 : W = 288 := by
    simp only [DIFFICULTY_WINDOW_VARIANTS, List.mem_cons, List.mem_singleton,
      List.mem_nil_iff, or_false] at hW
    rcases hW with h | h | h <;> rw [h] <;> decide
  subst h288
  decide

/-- C3 at the window the `static_assert` checks, `DIFFICULTY_WINDOW` itself. -/
theorem difficulty_cut_leaves_two_witness :
    DIFFICULTY_WINDOW ∈ DIFFICULTY_WINDOW_VARIANTS ∧ 2 ≤ DIFFICULTY_WINDOW ∧
      2 * DIFFICULTY_CUT ≤ DIFFICULTY_WINDOW - 2 ∧
      DIFFICULTY_WINDOW - DIFFICULTY_CUT - DIFFICULTY_CUT = 168 :=
  have h := difficulty_cut_leaves_two DIFFICULTY_WINDOW (by decide)
  ⟨by decide, h.1, h.2.2.2.2.1, h.2.2.2.2.2.1⟩

/-- C8: the three window variants and `EXPECTED_NUMBER_OF_BLOCKS_PER_DAY` are all
288, the division `24*60*60 / DIFFICULTY_TARGET` is exact, and therefore, whatever
variant the policy selects at a height, the resolved window is 288 and the
window capacity `DIFFICULTY_WINDOW + DIFFICULTY_LAG` is 303. -/
theorem difficulty_window_same_at_every_height
    (select : Nat → DifficultyWindowVariant) (height : Nat) :
    DIFFICULTY_WINDOW = 288 ∧ DIFFICULTY_WINDOW_V2 = 288 ∧ DIFFICULTY_WINDOW_V3 = 288 ∧
      EXPECTED_NUMBER_OF_BLOCKS_PER_DAY = 288 ∧
      (24 * 60 * 60) % DIFFICULTY_TARGET = 0 ∧
      288 * DIFFICULTY_TARGET = 24 * 60 * 60 ∧
      difficultyWindowOf (select height) = 288 ∧
      windowCapacity select height = 303 := by
  have hv : ∀ v, difficultyWindowOf v = 288 := by
    intro v; cases v <;> decide
  refine ⟨by decide, by decide, by decide, by decide, by decide, by decide, hv _, ?_⟩
  unfold windowCapacity
  rw [hv]
  decide

/-- C9: the upgrade thresholds are in ascending order, and the resolver that
selects the highest threshold at most `height` selects nothing below height
11831 and a threshold of value 11831 from height 11831 on. -/
theorem upgrade_heights_resolve (height : Nat) :
    (UPGRADE_HEIGHT_V2 ≤ UPGRADE_HEIGHT_V3 ∧ UPGRADE_HEIGHT_V3 ≤ UPGRADE_HEIGHT_V4 ∧
      UPGRADE_HEIGHT_V4 ≤ UPGRADE_HEIGHT_V5) ∧
      (resolvePolicy height).map Prod.snd = if height < 11831 then none else some 11831 := by
  refine ⟨by decide, ?_⟩
  have e2 : UPGRADE_HEIGHT_V2 = 11831 := by decide
  have e3 : UPGRADE_HEIGHT_V3 = 11831 := by decide
  have e4 : UPGRADE_HEIGHT_V4 = 11831 := by decide
  have e5 : UPGRADE_HEIGHT_V5 = 11831 := by decide
  by_cases h : height < 11831
  · have h' : ¬ 11831 ≤ height := by omega
    simp [resolvePolicy, UPGRADE_HEIGHTS, resolveStep, e2, e3, e4, e5, h, h']
  · have h' : 11831 ≤ height := by omega
    simp [resolvePolicy, UPGRADE_HEIGHTS, resolveStep, e2, e3, e4, e5, h, h']

/-- C10, refuted as stated: `FUSION_TX_MAX_SIZE` (3000) exceeds
`MAX_TRANSACTION_SIZE_LIMIT` (1900). -/
theorem fusion_size_exceeds_limit :
    ¬ (FUSION_TX_MAX_SIZE ≤ MAX_TRANSACTION_SIZE_LIMIT) := by
  decide

/-- C10, amended: `MAX_TRANSACTION_SIZE_LIMIT` evaluates to 1900 with no
wraparound in its subtraction (`10000 / 4 = 2500 >= 600`), `FUSION_TX_MAX_SIZE`
evaluates to 3000 with no wraparound in its multiplication, and the fusion
size is above the general limit. -/
theorem max_transaction_size_limit_value :
    MAX_TRANSACTION_SIZE_LIMIT = 1900 ∧
      CRYPTONOTE_BLOCK_GRANTED_FULL_REWARD_ZONE_CURRENT / 4 = 2500 ∧
      CRYPTONOTE_COINBASE_BLOB_RESERVED_SIZE ≤
        CRYPTONOTE_BLOCK_GRANTED_FULL_REWARD_ZONE_CURRENT / 4 ∧
      MAX_TRANSACTION_SIZE_LIMIT =
        CRYPTONOTE_BLOCK_GRANTED_FULL_REWARD_ZONE_CURRENT / 4 -
          CRYPTONOTE_COINBASE_BLOB_RESERVED_SIZE ∧
      FUSION_TX_MAX_SIZE = 3000 ∧
      FUSION_TX_MAX_SIZE = CRYPTONOTE_BLOCK_GRANTED_FULL_REWARD_ZONE_V1 * 30 / 100 ∧
      MAX_TRANSACTION_SIZE_LIMIT < FUSION_TX_MAX_SIZE := by
  decide

/-! ## Theorems on the checkpoint table -/

/-- In a table whose heights are pairwise distinct, looking a height up finds
exactly the entry of the table with that height. -/
theorem find_by_height_iff (table : List CheckpointData)
    (hnd : (table.map CheckpointData.height).Nodup) (height : Nat) (e : CheckpointData) :
    table.find? (fun c => c.height == height) = some e ↔ e ∈ table ∧ e.height = height := by
  induction table with
  | nil => simp
  | cons c rest ih =>
    rw [List.map_cons, List.nodup_cons] at hnd
    by_cases hc : c.height = height
    · have hb : (c :: rest).find? (fun c => c.height == height) = some c := by
        simp [List.find?_cons, hc]
      rw [hb]
      constructor
      · intro h
        cases h
        exact ⟨List.mem_cons_self _ _, hc⟩
      · rintro ⟨hmem, hh⟩
        rcases List.mem_cons.mp hmem with h | h
        · rw [h]
        · exfalso
          apply hnd.1
          rw [hc, ← hh]
          exact List.mem_map_of_mem _ h
    · have hb : (c :: rest).find? (fun c => c.height == height) =
          rest.find? (fun c => c.height == height) := by
        simp [List.find?_cons, hc]
      rw [hb, ih hnd.2]
      constructor
      · rintro ⟨hmem, hh⟩
        exact ⟨List.mem_cons_of_mem _ hmem, hh⟩
      · rintro ⟨hmem, hh⟩
        rcases List.mem_cons.mp hmem with h | h
        · rw [h] at hh
          exact absurd hh hc
        · exact ⟨h, hh⟩

/-- C1: `verify height hash` is true exactly when the checkpoint table has an
entry with that height and that block id; `verify` accepts the block id of
height 11832, rejects every other hash at that height, and rejects every hash
at height 999999, which is no checkpoint height. -/
theorem verify_iff_checkpoint (height : Nat) (hash : String) :
    (verify height hash = true ↔
        ∃ e ∈ CHECKPOINTS, e.height = height ∧ e.blockId = hash) ∧
      verify 11832 "a24f5db484e7297b81f98b575304c6f24587ed1f01d65953ad8565361b827620" = true ∧
      (verify 11832 hash = true ↔
        hash = "a24f5db484e7297b81f98b575304c6f24587ed1f01d65953ad8565361b827620") ∧
      verify 999999 hash = false := by
  have hnd : (CHECKPOINTS.map CheckpointData.height).Nodup := by decide
  have key := find_by_height_iff CHECKPOINTS hnd
  refine ⟨?_, by decide, ?_, ?_⟩
  · unfold verify
    cases hf : CHECKPOINTS.find? (fun e => e.height == height) with
    | none =>
      simp only [Bool.false_eq_true, false_iff]
      rintro ⟨e, he, hh, -⟩
      have := List.find?_eq_none.mp hf e he
      simp [hh] at this
    | some e =>
      have h := (key height e).mp hf
      simp only [beq_iff_eq]
      constructor
      · intro hx
        exact ⟨e, h.1, h.2, hx⟩
      · rintro ⟨e2, he2, hh2, hx2⟩
        have : CHECKPOINTS.find? (fun e => e.height == height) = some e2 :=
          (key height e2).mpr ⟨he2, hh2⟩
        rw [hf] at this
        cases this
        exact hx2
  · have hf : CHECKPOINTS.find? (fun e => e.height == 11832) =
        some ⟨11832, "a24f5db484e7297b81f98b575304c6f24587ed1f01d65953ad8565361b827620"⟩ := by
      decide
    unfold verify
    rw [hf]
    simp only [beq_iff_eq]
    exact eq_comm
  · have hf : CHECKPOINTS.find? (fun e => e.height == 999999) = none := by decide
    unfold verify
    rw [hf]

/-- C4: the heights of the checkpoint table are strictly increasing in table
order (10, 100, 1000, 10000, 11832), hence pairwise distinct, so that two
entries with the same height are the same entry (one expected hash per
height); `latestCheckpointHeight` is the height of the last entry, 11832, and
is at least every checkpoint height. -/
theorem checkpoint_heights_increasing :
    CHECKPOINTS.map CheckpointData.height = [10, 100, 1000, 10000, 11832] ∧
      (CHECKPOINTS.map CheckpointData.height).Pairwise (· < ·) ∧
      (CHECKPOINTS.map CheckpointData.height).Nodup ∧
      (∀ a ∈ CHECKPOINTS, ∀ b ∈ CHECKPOINTS, a.height = b.height → a.blockId = b.blockId) ∧
      CHECKPOINTS.getLast?.map CheckpointData.height = some latestCheckpointHeight ∧
      latestCheckpointHeight = 11832 ∧
      (∀ e ∈ CHECKPOINTS, e.height ≤ latestCheckpointHeight) := by
  refine ⟨by decide, by decide, by decide, by decide, by decide, by decide, by decide⟩

/-- C5: every block id of the checkpoint table is exactly 64 characters long,
each of them a hexadecimal digit, and hex-decoding it succeeds with exactly 32
bytes, each below 256. -/
theorem checkpoint_block_ids_are_digests :
    ∀ e ∈ CHECKPOINTS,
      e.blockId.length = 64 ∧
      (∀ c ∈ e.blockId.toList, (hexValue c).isSome = true) ∧
      (fromHex e.blockId.toList).map List.length = some 32 ∧
      (fromHex e.blockId.toList).map (fun bytes => bytes.all (fun b => decide (b < 256))) =
        some true := by
  set_option maxRecDepth 100000 in decide

/-- C5 at the entry of height 11832: its block id has 64 characters and decodes
to 32 bytes. -/
theorem checkpoint_block_ids_are_digests_witness :
    (CheckpointData.mk 11832
        "a24f5db484e7297b81f98b575304c6f24587ed1f01d65953ad8565361b827620") ∈ CHECKPOINTS ∧
      "a24f5db484e7297b81f98b575304c6f24587ed1f01d65953ad8565361b827620".length = 64 ∧
      (fromHex "a24f5db484e7297b81f98b575304c6f24587ed1f01d65953ad8565361b827620".toList).map
        List.length = some 32 :=
  have h := checkpoint_block_ids_are_digests
    ⟨11832, "a24f5db484e7297b81f98b575304c6f24587ed1f01d65953ad8565361b827620"⟩ (by decide)
  ⟨by decide, h.1, h.2.2.1⟩

/-! ## Theorems on the timestamp window and the reorg guard -/

/-- C7: appending to a non-empty window a record whose height is not the last
height plus one fails with `OutOfOrderError` and leaves the window as it was
(same records in the same order, same configuration). -/
theorem append_out_of_order (w : TimestampWindow) (last record : BlockTimingRecord)
    (hlast : w.records.getLast? = some last) (hskip : record.height ≠ last.height + 1) :
    w.append record = (Except.error CoreError.OutOfOrderError, w) ∧
      (w.append record).2.records = w.records := by
  have h : w.append record = (Except.error CoreError.OutOfOrderError, w) := by
    simp [TimestampWindow.append, hlast, hskip]
  exact ⟨h, by rw [h]⟩

/-- C7 on a window holding heights 5 and 6, appending height 8, which skips 7. -/
theorem append_out_of_order_witness :
    (TimestampWindow.mk [⟨5, 100, 10⟩, ⟨6, 400, 20⟩] 303 5).append ⟨8, 700, 30⟩ =
      (Except.error CoreError.OutOfOrderError,
        TimestampWindow.mk [⟨5, 100, 10⟩, ⟨6, 400, 20⟩] 303 5) :=
  (append_out_of_order (TimestampWindow.mk [⟨5, 100, 10⟩, ⟨6, 400, 20⟩] 303 5)
    ⟨6, 400, 20⟩ ⟨8, 700, 30⟩ (by decide) (by decide)).1

/-- C6: below `POISSON_CHECK_TRIGGER` (10) the guard accepts whatever the two
windows hold and whatever the log-probability computation would give, with the
same result for any other pair of windows; and since `POISSON_CHECK_TRIGGER <=
POISSON_CHECK_DEPTH`, at `reorgDepth = POISSON_CHECK_DEPTH` the guard is not
short-circuited: its verdict is the comparison of the computed log-probability
with `POISSON_LOG_P_REJECT`. -/
theorem poisson_check_short_circuit
    (logP : List BlockTimingRecord → List BlockTimingRecord → Nat → Int)
    (mainWindow altWindow otherMain otherAlt : List BlockTimingRecord) (reorgDepth : Nat)
    (hdepth : reorgDepth < POISSON_CHECK_TRIGGER) :
    (PoissonReorgGuard.check logP mainWindow altWindow reorgDepth).accepted = true ∧
      PoissonReorgGuard.check logP mainWindow altWindow reorgDepth =
        PoissonReorgGuard.check logP otherMain otherAlt reorgDepth ∧
      POISSON_CHECK_TRIGGER = 10 ∧ POISSON_CHECK_DEPTH = 60 ∧
      POISSON_CHECK_TRIGGER ≤ POISSON_CHECK_DEPTH ∧
      PoissonReorgGuard.check logP mainWindow altWindow POISSON_CHECK_DEPTH =
        { accepted := !decide (logP (mainWindow.drop (mainWindow.length - POISSON_CHECK_DEPTH))
            altWindow POISSON_CHECK_DEPTH < POISSON_LOG_P_REJECT),
          logProbability := logP (mainWindow.drop (mainWindow.length - POISSON_CHECK_DEPTH))
            altWindow POISSON_CHECK_DEPTH } := by
  have hnot : ¬ POISSON_CHECK_DEPTH < POISSON_CHECK_TRIGGER := by decide
  refine ⟨?_, ?_, by decide, by decide, by decide, ?_⟩
  · simp [PoissonReorgGuard.check, hdepth]
  · simp [PoissonReorgGuard.check, hdepth]
  · simp only [PoissonReorgGuard.check, if_neg hnot]

/-- C6 at depth 9 with a log-probability computation that always reports
`-1000`: accepted below the trigger, rejected at `POISSON_CHECK_DEPTH`. -/
theorem poisson_check_short_circuit_witness :
    (PoissonReorgGuard.check (fun _ _ _ => -1000) [⟨1, 2, 3⟩] [⟨1, 5, 9⟩] 9).accepted = true ∧
      (PoissonReorgGuard.check (fun _ _ _ => -1000) [⟨1, 2, 3⟩] [⟨1, 5, 9⟩]
        POISSON_CHECK_DEPTH).accepted = false :=
  have h := poisson_check_short_circuit (fun _ _ _ => -1000) [⟨1, 2, 3⟩] [⟨1, 5, 9⟩] [] [] 9
    (by decide)
  ⟨h.1, by rw [h.2.2.2.2.2]; decide⟩

/-! ## Theorems on the cut of the difficulty window -/

/-- What is left after cutting both ends is a sublist of the list. -/
theorem trimEnds_sublist {α : Type} (cut : Nat) (l : List α) : (trimEnds cut l).Sublist l :=
  (List.take_sublist _ _).trans (List.drop_sublist _ _)

/-- Cutting `cut` elements from each end leaves `length - cut - cut` elements. -/
theorem length_trimEnds {α : Type} (cut : Nat) (l : List α) :
    (trimEnds cut l).length = l.length - cut - cut := by
  unfold trimEnds
  rw [List.length_take, List.length_drop]
  omega

end CryptoNote
